import Mathlib

/-!
Shallow embedding of the ACPI table-parsing engine: the SLIT distance
matrix accessors, the SRAT variable-length entry iterator and its decoded
entry views, the HPET info constructor, the platform-info aggregator and
the AP wakeup handshake.  Machine integers are modelled as `Nat` with
explicit `% 2^w` wherever wrap-around matters (release-mode Rust wraps);
fallible paths return `Except`; a Rust panic is modelled as the outer
`none` of an `Option`.
-/

namespace Acpi

/-- Modelled from the spec: 4-byte table signatures used by the table
store (the fixed hardware table, interrupt-controller table, locality
table, affinity table, high-precision-timer table). The `Signature` enum
itself lives outside the provided sources. -/
inductive Signature where
  | FADT
  | MADT
  | HPET
  | SLIT
  | SRAT
deriving DecidableEq, Repr

/-- Modelled from the spec: the distinct wakeup-timeout error of the
interrupt-controller table module (`MadtError`, declared outside the
provided sources). -/
inductive MadtError where
  | WakeupApsTimeout
deriving DecidableEq, Repr

/-- Modelled from the spec: the crate error type, as used by the provided
sources: a required-table-missing error naming the missing signature, and
an invalid-MADT error wrapping a `MadtError`. -/
inductive AcpiError where
  | TableNotFound (sig : Signature)
  | InvalidMadt (e : MadtError)
deriving DecidableEq, Repr

/-! ## SLIT (System Locality Information Table), from src/sdt/slit.rs -/

/-- Size in bytes of the `Slit` fixed header struct: the 36-byte common
SDT header (signature 4, length 4, revision 1, checksum 1, OEM id 6, OEM
table id 8, OEM revision 4, creator id 4, creator revision 4 — layout
fixed by the external hardware-description specification) followed by the
`u64` proximity-domain count. -/
def slitStructSize : Nat := 36 + 8

/-- The SLIT table view: `header.length` (a `u32`), the `u64`
`num_proximity_domains` field, and the bytes of memory that follow the
fixed `Slit` struct (the table's own bytes and whatever memory lies
beyond them). -/
structure Slit where
  header_length : Nat
  num_proximity_domains : Nat
  bytes : List Nat
deriving DecidableEq, Repr

/-- `Slit::matrix`, exactly as in the source: `num_entries` is
`num_proximity_domains * num_proximity_domains` (u64, wrapping), and the
guard compares `size_of(Slit) + num_entries * num_entries * 1` (usize,
wrapping) against `header.length`; on failure `num_entries` is set to 0.
The returned slice is the first `num_entries` bytes after the struct. -/
def Slit.matrix (s : Slit) : List Nat :=
  let ne := (s.num_proximity_domains * s.num_proximity_domains) % 2 ^ 64
  let needed := (slitStructSize + (ne * ne) % 2 ^ 64) % 2 ^ 64
  let ne := if needed > s.header_length then 0 else ne
  s.bytes.take ne

/-- `Slit::entry`, exactly as in the source: guard
`i <= num_proximity_domains && j <= num_proximity_domains`, then index
`matrix[i + j * num_proximity_domains]`.  The result is
`some (some v)` when the source returns `Some(v)`, `some none` when it
returns `None`, and `none` when the slice index panics. -/
def Slit.entry (s : Slit) (i j : Nat) : Option (Option Nat) :=
  if i ≤ s.num_proximity_domains ∧ j ≤ s.num_proximity_domains then
    match s.matrix.get? (i + j * s.num_proximity_domains) with
    | some v => some (some v)
    | none => none
  else
    some none

/-! ## SRAT (System Resource Affinity Table), from src/sdt/srat.rs -/

/-- Read the byte of the entry region at a relative offset; the list is
the memory that follows the fixed `Srat` header. -/
def byteAt (bytes : List Nat) (i : Nat) : Nat :=
  bytes.getD i 0

/-- The `typ` field of the entry sub-header at offset `pos` (a `u8`). -/
def entryTyp (bytes : List Nat) (pos : Nat) : Nat :=
  byteAt bytes pos

/-- The little-endian `u16` `length` field of the entry sub-header at
offset `pos` (bytes `pos+1` and `pos+2`). -/
def entryLen (bytes : List Nat) (pos : Nat) : Nat :=
  byteAt bytes (pos + 1) + 256 * byteAt bytes (pos + 2)

/-- The iterator state of `SratEntryIter`: the cursor (as an offset into
the entry region) and the `remaining_length` counter. -/
structure SratEntryIter where
  pos : Nat
  remaining_length : Nat
deriving DecidableEq, Repr

/-- A yielded SRAT entry: the source yields a typed reference at the
entry's start address, identified here by its type tag and offset. -/
structure SratEntryRef where
  typ : Nat
  off : Nat
deriving DecidableEq, Repr

/-- The outcome of one pass through the body of the `while` loop inside
`SratEntryIter::next`. -/
inductive SratStep where
  | yieldEntry (e : SratEntryRef) (s : SratEntryIter)
  | stop
  | skip (s : SratEntryIter)
deriving DecidableEq, Repr

/-- One iteration of the loop in `SratEntryIter::next`: if
`remaining_length` is 0 the loop exits (`stop` = return `None`); else
read the sub-header; if its `length` exceeds `remaining_length`, return
`None` (`stop`); else advance the cursor by `length`, saturating-subtract
`length` from `remaining_length`, and either yield the entry (type tags
0..=5) or skip it (any other tag). -/
def sratStep (bytes : List Nat) (s : SratEntryIter) : SratStep :=
  if s.remaining_length = 0 then .stop
  else
    let len := entryLen bytes s.pos
    if len > s.remaining_length then .stop
    else
      let s2 : SratEntryIter := ⟨s.pos + len, s.remaining_length - len⟩
      let typ := entryTyp bytes s.pos
      if typ ≤ 5 then .yieldEntry ⟨typ, s.pos⟩ s2 else .skip s2

/-- A fueled run of one call to `SratEntryIter::next`: `some (none, s)`
means the call returned `None` with final state `s`; `some (some e, s)`
means it yielded entry `e`; `none` means the fuel ran out while the loop
was still spinning (so the real loop performs more than `fuel`
iterations on this input). -/
def sratNext (bytes : List Nat) : Nat → SratEntryIter → Option (Option SratEntryRef × SratEntryIter)
  | 0, _ => none
  | fuel + 1, s =>
    match sratStep bytes s with
    | .stop => some (none, s)
    | .yieldEntry e s2 => some (some e, s2)
    | .skip s2 => sratNext bytes fuel s2

/-- The decoded `MemoryAffinity` entry view (type 1): the fields relevant
to the wide-value accessors, each a `u32` in the source. -/
structure MemoryAffinity where
  proximity_domain : Nat
  base_address_low : Nat
  base_address_high : Nat
  length_low : Nat
  length_high : Nat
deriving DecidableEq, Repr

/-- `BitField::set_bits(32..64, v)` on a `u64` whose current value is
`x`: the low 32 bits of `x` are kept and `v` (which must fit in 32 bits)
becomes bits 32..64. -/
def setBits32to64 (x v : Nat) : Nat :=
  x % 2 ^ 32 + (v % 2 ^ 32) * 2 ^ 32

/-- `MemoryAffinity::base_address`, exactly as in the source: start from
`base_address_low` and set bits 32..64 to `base_address_high`. -/
def MemoryAffinity.base_address (m : MemoryAffinity) : Nat :=
  setBits32to64 (m.base_address_low % 2 ^ 32) m.base_address_high

/-- `MemoryAffinity::length`, exactly as in the source: start from
`length_low` and set bits 32..64 to `base_address_high` (the source
reuses the base address's high field here, not `length_high`). -/
def MemoryAffinity.length (m : MemoryAffinity) : Nat :=
  setBits32to64 (m.length_low % 2 ^ 32) m.base_address_high

/-! ## HPET table, from src/sdt/hpet.rs -/

/-- The closed set of page-protection guarantees. -/
inductive PageProtection where
  | None
  | Protected4K
  | Protected64K
  | Other
deriving DecidableEq, Repr

/-- The `HpetTable` view: the packed `u32` `event_timer_block_id`, the
generic base address (its `address_space` and `address` fields, layout
fixed externally), the HPET number, the clock tick unit, and the packed
`u8` `page_protection_and_oem` byte. -/
structure HpetTable where
  event_timer_block_id : Nat
  base_address_space : Nat
  base_address : Nat
  hpet_number : Nat
  clock_tick_unit : Nat
  page_protection_and_oem : Nat
deriving DecidableEq, Repr

/-- The decoded `HpetInfo` result structure. -/
structure HpetInfo where
  hardware_rev : Nat
  num_comparators : Nat
  main_counter_is_64bits : Bool
  legacy_irq_capable : Bool
  pci_vendor_id : Nat
  base_address : Nat
  hpet_number : Nat
  clock_tick_unit : Nat
  page_protection : PageProtection
deriving DecidableEq, Repr

/-- The `match` on `page_protection_and_oem.get_bits(0..4)` inside
`HpetInfo::new`, exactly as in the source: arms `0`, `1`, `2`, `3..=15`,
and the defensive `unreachable!()` arm (modelled as `none` = panic). -/
def pageProtectionOfCode (c : Nat) : Option PageProtection :=
  if c = 0 then some PageProtection.None
  else if c = 1 then some PageProtection.Protected4K
  else if c = 2 then some PageProtection.Protected64K
  else if 3 ≤ c ∧ c ≤ 15 then some PageProtection.Other
  else none

/-- `HpetInfo::new`: look the HPET table up in the store (`none` input =
table absent, yielding `TableNotFound(HPET)`); otherwise decode the
packed `event_timer_block_id` by bit ranges and classify the
page-protection code (bits 0..4 of `page_protection_and_oem`).  The
outer `Option` is `none` exactly when the `unreachable!()` arm would
panic. -/
def HpetInfo.new (tables : Option HpetTable) : Option (Except AcpiError HpetInfo) :=
  match tables with
  | none => some (Except.error (AcpiError.TableNotFound Signature.HPET))
  | some t =>
    match pageProtectionOfCode (t.page_protection_and_oem % 2 ^ 4) with
    | none => none
    | some pp =>
      some (Except.ok
        { hardware_rev := t.event_timer_block_id % 2 ^ 8
          num_comparators := t.event_timer_block_id / 2 ^ 8 % 2 ^ 5
          main_counter_is_64bits := t.event_timer_block_id / 2 ^ 13 % 2 = 1
          legacy_irq_capable := t.event_timer_block_id / 2 ^ 15 % 2 = 1
          pci_vendor_id := t.event_timer_block_id / 2 ^ 16 % 2 ^ 16
          base_address := t.base_address
          hpet_number := t.hpet_number
          clock_tick_unit := t.clock_tick_unit
          page_protection := pp })

/-- Follows the spec's words (for comparison with the decoder above):
defined page-protection codes 0, 1 and 2 map to their named variants and
every other code in the 4-bit range maps to `Other`. -/
def specPageProtectionOfCode (c : Nat) : PageProtection :=
  if c = 0 then PageProtection.None
  else if c = 1 then PageProtection.Protected4K
  else if c = 2 then PageProtection.Protected64K
  else PageProtection.Other

/-! ## Platform aggregation and AP wakeup, from acpi/src/platform/mod.rs -/

/-- Modelled from the spec: the FADT view used by `PlatformInfo::new_in`
and `PmTimer::new` (the `Fadt` type is outside the provided sources): an
opaque power-profile value, the fallible PM-timer register block lookup,
and the 32-bit-counter flag. -/
structure FadtModel where
  power_profile : Nat
  pm_timer_block : Except AcpiError (Option Nat)
  pm_timer_is_32_bit : Bool

/-- The decoded PM timer description. -/
structure PmTimer where
  base : Nat
  supports_32bit : Bool
deriving DecidableEq, Repr

/-- `PmTimer::new`, exactly as in the source: propagate an error from the
register-block lookup; `Some base` yields a timer with the FADT's
32-bit flag; `None` yields no timer. -/
def PmTimer.new (fadt : FadtModel) : Except AcpiError (Option PmTimer) :=
  match fadt.pm_timer_block with
  | Except.error e => Except.error e
  | Except.ok (some base) => Except.ok (some ⟨base, fadt.pm_timer_is_32_bit⟩)
  | Except.ok none => Except.ok none

/-- The aggregate `PlatformInfo` result: power profile (opaque), the
interrupt model and optional processor info (both opaque, produced by
the MADT-driven constructor that is outside the provided sources), and
the optional PM timer. -/
structure PlatformInfoModel where
  power_profile : Nat
  interrupt_model : Nat
  processor_info : Option Nat
  pm_timer : Option PmTimer

/-- `PlatformInfo::new_in`: look the FADT up in the store (`none` input =
table absent, yielding `TableNotFound(FADT)`); then derive the interrupt
model and processor info (modelled from the spec as a supplied fallible
result, since `InterruptModel::new_in` is outside the provided sources),
then the PM timer; errors propagate. -/
def PlatformInfo.new_in (fadt : Option FadtModel)
    (interruptResult : Except AcpiError (Nat × Option Nat)) :
    Except AcpiError PlatformInfoModel :=
  match fadt with
  | none => Except.error (AcpiError.TableNotFound Signature.FADT)
  | some f =>
    match interruptResult with
    | Except.error e => Except.error e
    | Except.ok (im, pi) =>
      match PmTimer.new f with
      | Except.error e => Except.error e
      | Except.ok pm => Except.ok ⟨f.power_profile, im, pi, pm⟩

/-- Modelled from the spec: the mailbox command values used by the AP
wakeup handshake (`MpProtectedModeWakeupCommand` is outside the provided
sources): `Noop` clears the mailbox, `Wakeup` requests a wakeup. -/
inductive MpCmd where
  | Noop
  | Wakeup
deriving DecidableEq, Repr

/-- Modelled from the spec: the MADT view used by `wakeup_aps` (the
`Madt` type is outside the provided sources): the fallible
multiprocessor-wakeup mailbox address lookup. -/
structure MadtModel where
  mpwk_mailbox_addr : Except AcpiError Nat

/-- The observable outcome of one `wakeup_aps` call: its result, how many
times the mailbox mapping was mapped and released, how many volatile
polls of the command field were performed, and the values written into
the mailbox (command writes in order, APIC id, wakeup vector). -/
structure WakeupOutcome where
  result : Except AcpiError Unit
  mapped : Nat
  released : Nat
  polls : Nat
  command_writes : List MpCmd
  apic_id_written : Option Nat
  wakeup_vector_written : Option Nat

/-- The spin-wait loop of `wakeup_aps`.  In the source, `loops` counts up
and the loop errors out when `loops >= timeout_loops`; here `fuel`
carries `timeout_loops - loops`, which reaches 0 exactly when the source
guard fires.  `reads k` is the command obtained by the k-th volatile
read.  Returns the result together with the final `loops` value, which
equals the number of polls performed. -/
def wakeupLoop (reads : Nat → MpCmd) : Nat → Nat → MpCmd → Except AcpiError Unit × Nat
  | _, loops, MpCmd.Noop => (Except.ok (), loops)
  | 0, loops, _ => (Except.error (AcpiError.InvalidMadt MadtError.WakeupApsTimeout), loops)
  | fuel + 1, loops, _ => wakeupLoop reads fuel (loops + 1) (reads loops)

/-- `wakeup_aps`: look the MADT up in the store (`none` input = table
absent, yielding `TableNotFound(MADT)`); fetch the mailbox address
(errors propagate); map the mailbox; write `Noop`, fill in the APIC id
and wakeup vector, write `Wakeup`; spin-wait with `loops` starting at 0
and `command` starting at `Wakeup`.  The mapping is an owned value in the
source, so it is released once on every exit path of the handshake (the
early timeout return drops it implicitly, the success path drops it
explicitly). -/
def wakeup_aps (tables : Option MadtModel) (reads : Nat → MpCmd)
    (apic_id wakeup_vector timeout_loops : Nat) : WakeupOutcome :=
  match tables with
  | none =>
    ⟨Except.error (AcpiError.TableNotFound Signature.MADT), 0, 0, 0, [], none, none⟩
  | some madt =>
    match madt.mpwk_mailbox_addr with
    | Except.error e => ⟨Except.error e, 0, 0, 0, [], none, none⟩
    | Except.ok _addr =>
      let r := wakeupLoop reads timeout_loops 0 MpCmd.Wakeup
      ⟨r.1, 1, 1, r.2, [MpCmd.Noop, MpCmd.Wakeup], some apic_id, some wakeup_vector⟩

/-! ## Theorems -/

/-- Claim C1: the claim states that `Slit::matrix` has length
`num_proximity_domains ^ 2` whenever
`header.length ≥ size_of(Slit) + num_proximity_domains ^ 2`.  The source
guard instead demands `size_of(Slit) + num_entries * num_entries` bytes,
i.e. `num_proximity_domains ^ 4`: for a SLIT with 2 proximity domains
and `header.length = 48`, the header declares enough bytes for the
4-byte matrix (48 ≥ 44 + 4), yet the accessor returns the empty
matrix. -/
theorem slit_matrix_undersize_check_bug :
    slitStructSize + 2 * 2 ≤ 48
    ∧ (Slit.matrix ⟨48, 2, [10, 5, 5, 10]⟩).length = 0 := by
  decide

/-- Claim C2: the claim states that `MemoryAffinity::length` places
`length_high` into bits 32..64.  The source instead reuses
`base_address_high` there: for the entry with
`base_address_low = 0xAAAABBBB`, `base_address_high = 1`,
`length_low = 3`, `length_high = 7`, the decoded base address is
`0x00000001AAAABBBB` (the claim's base-address example holds), but the
decoded length is `3 + 1 * 2^32`, not the claimed
`length_low + length_high * 2^32 = 3 + 7 * 2^32`. -/
theorem memory_affinity_length_high_field_bug :
    (MemoryAffinity.base_address ⟨0, 0xAAAABBBB, 1, 3, 7⟩ = 0x00000001AAAABBBB)
    ∧ (MemoryAffinity.length ⟨0, 0xAAAABBBB, 1, 3, 7⟩ = 3 + 1 * 2 ^ 32)
    ∧ MemoryAffinity.length ⟨0, 0xAAAABBBB, 1, 3, 7⟩ ≠ 3 + 7 * 2 ^ 32 := by
  refine ⟨by decide, by decide, by decide⟩

/-- Claim C4: the claim (and the source's own doc comment) states that
`Slit::entry(i, j)` returns the matrix byte at flat offset
`i * N + j`.  The source indexes `matrix[i + j * N]` (the transpose):
for a SLIT with `N = 2`, `header.length = 60` and matrix bytes
`[10, 5, 7, 10]`, `entry(0, 1)` returns `Some(7) = matrix[j*N+i]`,
while the byte at the claimed offset `0 * 2 + 1` is `5`. -/
theorem slit_entry_transposed_index_bug :
    (Slit.entry ⟨60, 2, [10, 5, 7, 10]⟩ 0 1 = some (some 7))
    ∧ ((Slit.matrix ⟨60, 2, [10, 5, 7, 10]⟩).get? (0 * 2 + 1) = some 5)
    ∧ (7 : Nat) ≠ 5 := by
  decide

/-- Claim C10: the claim states that `Slit::entry(i, j)` returns `None`
whenever `i ≥ num_proximity_domains` or `j ≥ num_proximity_domains` and
never panics.  The source guard uses `<=` instead of `<`: for a SLIT
with `N = 2`, `header.length = 60` and matrix `[10, 5, 5, 10]`, the
out-of-range call `entry(2, 2)` passes the guard and panics indexing
`matrix[2 + 2 * 2]` in the 4-byte matrix (modelled `none`), and
`entry(2, 0)` returns `Some(5)` instead of `None`. -/
theorem slit_entry_bounds_check_bug :
    (Slit.entry ⟨60, 2, [10, 5, 5, 10]⟩ 2 2 = none)
    ∧ (Slit.entry ⟨60, 2, [10, 5, 5, 10]⟩ 2 0 = some (some 5)) := by
  decide

/-- Claim C5: the claim states that every call to
`SratEntryIter::next` terminates with work bounded by the table length.
On an entry region starting with a zero-length entry of unrecognized
type (bytes `[6, 0, 0]`, `remaining_length = 3`), the loop body neither
advances the cursor nor shrinks `remaining_length`, so the `while` loop
spins forever: for every fuel bound the fueled run is still spinning
(`none`), i.e. the call performs more iterations than any bound. -/
theorem srat_next_zero_length_entry_loops :
    ∀ fuel : Nat, sratNext [6, 0, 0] fuel ⟨0, 3⟩ = none := by
  intro fuel
  induction fuel with
  | zero => rfl
  | succ n ih => exact ih

/-- Claim C3: if the entry sub-header at the cursor lies within the
table's declared bounds but its declared `length` exceeds the remaining
bytes, `SratEntryIter::next` returns `None` immediately, yields no
entry, and leaves the cursor where it was; and the decision reads no
byte past the declared table end, since any memory agreeing with the
table on the declared region produces the same outcome. -/
theorem srat_next_overrun_fails_closed (bytes bytes2 : List Nat)
    (s : SratEntryIter) (fuel : Nat)
    (hrem : 3 ≤ s.remaining_length)
    (hover : s.remaining_length < entryLen bytes s.pos)
    (hagree : ∀ i, i < s.pos + s.remaining_length → byteAt bytes2 i = byteAt bytes i) :
    sratNext bytes (fuel + 1) s = some (none, s)
    ∧ sratNext bytes2 (fuel + 1) s = some (none, s) := by
  have hlen2 : entryLen bytes2 s.pos = entryLen bytes s.pos := by
    unfold entryLen
    rw [hagree (s.pos + 1) (by omega), hagree (s.pos + 2) (by omega)]
  have h0 : ¬s.remaining_length = 0 := by omega
  have h1 : entryLen bytes s.pos > s.remaining_length := hover
  constructor
  · simp [sratNext, sratStep, h0, h1]
  · simp [sratNext, sratStep, h0, h1, hlen2]

/-- Witness for C3: an entry region of 3 remaining bytes whose first
entry declares length 100; the call returns `None` without yielding,
both on the table's own bytes and on a memory that differs only past
the declared end. -/
theorem srat_next_overrun_fails_closed_witness :
    sratNext [1, 100, 0, 7] 1 ⟨0, 3⟩ = some (none, ⟨0, 3⟩)
    ∧ sratNext [1, 100, 0, 42] 1 ⟨0, 3⟩ = some (none, ⟨0, 3⟩) :=
  srat_next_overrun_fails_closed [1, 100, 0, 7] [1, 100, 0, 42] ⟨0, 3⟩ 0
    (by decide) (by decide) (by decide)

/-- Claim C7: on an entry whose type tag is none of the recognized
values 0..=5 and whose declared length fits in the remaining bytes,
`SratEntryIter::next` advances the cursor by that length without
yielding the entry and continues: the call behaves exactly as a call
started just past the skipped entry. -/
theorem srat_next_skips_unrecognized (bytes : List Nat) (pos rem fuel : Nat)
    (hrem : 0 < rem)
    (htyp : 5 < entryTyp bytes pos)
    (hlen : entryLen bytes pos ≤ rem) :
    sratNext bytes (fuel + 1) ⟨pos, rem⟩ =
      sratNext bytes fuel ⟨pos + entryLen bytes pos, rem - entryLen bytes pos⟩ := by
  have h1 : ¬rem = 0 := by omega
  have h2 : ¬entryLen bytes pos > rem := by omega
  have h3 : ¬entryTyp bytes pos ≤ 5 := by omega
  simp [sratNext, sratStep, h1, h2, h3]

/-- Witness for C7: an unrecognized type-9 entry of length 4 followed by
a recognized type-2 entry; the call skips the former and still yields
the latter. -/
theorem srat_next_skips_unrecognized_witness :
    sratNext [9, 4, 0, 0, 2, 3, 0] 2 ⟨0, 7⟩ = sratNext [9, 4, 0, 0, 2, 3, 0] 1 ⟨4, 3⟩
    ∧ sratNext [9, 4, 0, 0, 2, 3, 0] 1 ⟨4, 3⟩ = some (some ⟨2, 4⟩, ⟨7, 0⟩) :=
  ⟨srat_next_skips_unrecognized [9, 4, 0, 0, 2, 3, 0] 0 7 1 (by decide) (by decide) (by decide),
    by decide⟩

/-- Helper: when no poll of the mailbox command field ever reads `Noop`,
the spin-wait loop runs its fuel down and fails with the wakeup-timeout
error, having performed `loops + fuel` polls in total. -/
theorem wakeupLoop_never_noop (reads : Nat → MpCmd)
    (h : ∀ k, reads k ≠ MpCmd.Noop) :
    ∀ (fuel loops : Nat) (c : MpCmd), c ≠ MpCmd.Noop →
      wakeupLoop reads fuel loops c =
        (Except.error (AcpiError.InvalidMadt MadtError.WakeupApsTimeout), loops + fuel) := by
  intro fuel
  induction fuel with
  | zero =>
    intro loops c hc
    cases c with
    | Noop => exact absurd rfl hc
    | Wakeup => rfl
  | succ n ih =>
    intro loops c hc
    cases c with
    | Noop => exact absurd rfl hc
    | Wakeup =>
      have step : wakeupLoop reads (n + 1) loops MpCmd.Wakeup =
          wakeupLoop reads n (loops + 1) (reads loops) := rfl
      rw [step, ih (loops + 1) (reads loops) (h loops)]
      have : loops + 1 + n = loops + (n + 1) := by omega
      rw [this]

/-- Claim C6: when the mailbox command field never reads back `Noop`,
`wakeup_aps` performs exactly `timeout_loops` polling iterations and
fails with `InvalidMadt(WakeupApsTimeout)`; the mailbox mapping is
mapped once and released once on this timeout path (as it also is on the
success path, the mapping being an owned scoped value). -/
theorem wakeup_aps_timeout_exact (m : MadtModel) (addr : Nat)
    (reads : Nat → MpCmd) (apic_id wakeup_vector timeout_loops : Nat)
    (haddr : m.mpwk_mailbox_addr = Except.ok addr)
    (hnever : ∀ k, reads k ≠ MpCmd.Noop) :
    (wakeup_aps (some m) reads apic_id wakeup_vector timeout_loops).result =
        Except.error (AcpiError.InvalidMadt MadtError.WakeupApsTimeout)
    ∧ (wakeup_aps (some m) reads apic_id wakeup_vector timeout_loops).polls = timeout_loops
    ∧ (wakeup_aps (some m) reads apic_id wakeup_vector timeout_loops).mapped = 1
    ∧ (wakeup_aps (some m) reads apic_id wakeup_vector timeout_loops).released = 1 := by
  have hl := wakeupLoop_never_noop reads hnever timeout_loops 0 MpCmd.Wakeup (by decide)
  simp [wakeup_aps, haddr, hl]

/-- Witness for C6: a MADT with a valid mailbox address and a mailbox
that always reads back `Wakeup`: with `timeout_loops = 3` the handshake
fails with the wakeup-timeout error after exactly 3 polls, and the
mapping is mapped and released once. -/
theorem wakeup_aps_timeout_exact_witness :
    (wakeup_aps (some ⟨Except.ok 4096⟩) (fun _ => MpCmd.Wakeup) 1 2 3).result =
        Except.error (AcpiError.InvalidMadt MadtError.WakeupApsTimeout)
    ∧ (wakeup_aps (some ⟨Except.ok 4096⟩) (fun _ => MpCmd.Wakeup) 1 2 3).polls = 3
    ∧ (wakeup_aps (some ⟨Except.ok 4096⟩) (fun _ => MpCmd.Wakeup) 1 2 3).mapped = 1
    ∧ (wakeup_aps (some ⟨Except.ok 4096⟩) (fun _ => MpCmd.Wakeup) 1 2 3).released = 1 :=
  wakeup_aps_timeout_exact ⟨Except.ok 4096⟩ 4096 (fun _ => MpCmd.Wakeup) 1 2 3 rfl
    (fun _ h => MpCmd.noConfusion h)

/-- Claim C8: when a required table is absent from the store, each
requesting operation returns the typed table-not-found error naming the
missing signature (and neither panics nor returns a default value):
`PlatformInfo::new_in` yields `TableNotFound(FADT)`, `HpetInfo::new`
yields `TableNotFound(HPET)`, and `wakeup_aps` yields
`TableNotFound(MADT)`, whatever the other inputs are. -/
theorem missing_table_errors :
    ∀ (interruptResult : Except AcpiError (Nat × Option Nat))
      (reads : Nat → MpCmd) (apic_id wakeup_vector timeout_loops : Nat),
      PlatformInfo.new_in none interruptResult =
          Except.error (AcpiError.TableNotFound Signature.FADT)
      ∧ HpetInfo.new none =
          some (Except.error (AcpiError.TableNotFound Signature.HPET))
      ∧ (wakeup_aps none reads apic_id wakeup_vector timeout_loops).result =
          Except.error (AcpiError.TableNotFound Signature.MADT) := by
  intro interruptResult reads apic_id wakeup_vector timeout_loops
  exact ⟨rfl, rfl, rfl⟩

/-- Helper: on the whole 4-bit range the source's page-protection match
agrees with the spec's closed mapping and never reaches its
`unreachable!()` arm. -/
theorem pageProtectionOfCode_eq_spec (c : Nat) (hc : c ≤ 15) :
    pageProtectionOfCode c = some (specPageProtectionOfCode c) := by
  unfold pageProtectionOfCode specPageProtectionOfCode
  by_cases h0 : c = 0
  · simp [h0]
  · by_cases h1 : c = 1
    · simp [h0, h1]
    · by_cases h2 : c = 2
      · simp [h0, h1, h2]
      · have h3 : 3 ≤ c ∧ c ≤ 15 := ⟨by omega, hc⟩
        simp [h0, h1, h2, h3]

/-- Claim C9: for every HPET table, `HpetInfo::new` classifies bits 0..4
of `page_protection_and_oem` without ever reaching the defensive
`unreachable!()` branch (the constructor never panics), and the
resulting variant is exactly the spec's closed mapping: code 0 to
`None`, 1 to `Protected4K`, 2 to `Protected64K`, and every other 4-bit
code to `Other`. -/
theorem hpet_page_protection_total (t : HpetTable) :
    ∃ info : HpetInfo,
      HpetInfo.new (some t) = some (Except.ok info)
      ∧ info.page_protection =
          specPageProtectionOfCode (t.page_protection_and_oem % 2 ^ 4) := by
  have hc : t.page_protection_and_oem % 2 ^ 4 ≤ 15 := by
    have := Nat.mod_lt t.page_protection_and_oem (show 0 < 2 ^ 4 by norm_num)
    omega
  have hpp := pageProtectionOfCode_eq_spec (t.page_protection_and_oem % 2 ^ 4) hc
  simp only [HpetInfo.new]
  rw [hpp]
  exact ⟨_, rfl, rfl⟩

end Acpi
